import Mathlib

/-!
Shallow embedding of the lost/found pet matching engine of the
pet-management backend: the heuristic match scorer and haversine distance
of `src/utils/matchAlgorithm.ts`, the hourly match scanner of
`src/jobs/matchScanner.ts`, the notification helper of
`src/utils/sendNotification.ts`, and the match-query / confirm-match HTTP
handlers of `src/routes/lostPetRoutes.ts` and the pet-routes file.

Numbers: scores are naturals (sums of the fixed weights 4/3/2/2/6),
coordinates are rationals, and the haversine distance is a real number.
Object ids are modelled as naturals, timestamps as naturals.
-/

namespace PetMatch

open Classical

/-- Model of JavaScript `String.prototype.toLowerCase` (character-wise
case folding). -/
def jsToLower (s : String) : String := String.mk (s.data.map Char.toLower)

/-- Helper for the substring test: the char list `needle` is an initial
segment of `hay`. -/
def startsWithChars : List Char → List Char → Bool
  | _, [] => true
  | [], _ :: _ => false
  | h :: hs, n :: ns => h == n && startsWithChars hs ns

/-- Helper for the substring test: `needle` occurs contiguously inside
`hay`. -/
def containsChars : List Char → List Char → Bool
  | [], needle => needle.isEmpty
  | h :: hs, needle => startsWithChars (h :: hs) needle || containsChars hs needle

/-- Model of JavaScript `hay.includes(needle)` (contiguous substring). -/
def jsIncludes (hay needle : String) : Bool := containsChars hay.data needle.data

/-- JavaScript truthiness of an optional string field: `undefined` and the
empty string are falsy, every other string is truthy. -/
def strTruthy : Option String → Bool
  | none => false
  | some s => !s.data.isEmpty

/-- Value of a digit list read left to right in base 10. -/
def digitsToNat (ds : List Char) : ℕ :=
  ds.foldl (fun acc c => 10 * acc + (c.toNat - Char.toNat '0')) 0

/-- Model of JavaScript `parseFloat`: skip leading whitespace, read an
optional sign and the longest leading decimal literal
(digits, optional point and fraction digits, optional exponent); return
`none` when no digits are read (the `NaN` outcome).  The rational returned
is the exact value of the literal. -/
def parseFloatJS (s : String) : Option ℚ :=
  let cs0 := s.data.dropWhile Char.isWhitespace
  let neg := match cs0 with
    | '-' :: _ => true
    | _ => false
  let cs := match cs0 with
    | '-' :: rest => rest
    | '+' :: rest => rest
    | _ => cs0
  let intPart := cs.takeWhile Char.isDigit
  let cs1 := cs.drop intPart.length
  let fracPart := match cs1 with
    | '.' :: rest => rest.takeWhile Char.isDigit
    | _ => []
  let cs2 := match cs1 with
    | '.' :: rest => rest.drop fracPart.length
    | _ => cs1
  if intPart.isEmpty && fracPart.isEmpty then none
  else
    let mantissa : ℚ :=
      (digitsToNat intPart : ℚ) + mkRat (digitsToNat fracPart : ℤ) (10 ^ fracPart.length)
    let expVal : ℤ := match cs2 with
      | e :: rest =>
        if e == 'e' || e == 'E' then
          let eneg := match rest with
            | '-' :: _ => true
            | _ => false
          let rest2 := match rest with
            | '-' :: r => r
            | '+' :: r => r
            | _ => rest
          let eds := rest2.takeWhile Char.isDigit
          if eds.isEmpty then 0
          else if eneg then -(digitsToNat eds : ℤ) else (digitsToNat eds : ℤ)
        else 0
      | [] => 0
    let scale : ℚ :=
      if 0 ≤ expVal then mkRat ((10 ^ expVal.toNat : ℕ) : ℤ) 1
      else mkRat 1 (10 ^ (-expVal).toNat)
    let v := mantissa * scale
    some (if neg then -v else v)

/-- Optional coordinate container of a `PetLike` record: models
`location?: { coordinates?: [number, number] }` of
`src/utils/matchAlgorithm.ts`; pairs are `[lng, lat]`. -/
structure LocationLike where
  coordinates : Option (ℚ × ℚ)
deriving DecidableEq

/-- The `PetLike` record of `src/utils/matchAlgorithm.ts`: the minimal
attribute set the scorer reads.  Every attribute is optional. -/
structure PetLike where
  species : Option String
  breed : Option String
  age : Option String
  furColor : Option String
  eyeColor : Option String
  location : Option LocationLike
deriving DecidableEq

/-- Model of JavaScript `Math.atan2 y x`. -/
noncomputable def atan2 (y x : ℝ) : ℝ :=
  if 0 < x then Real.arctan (y / x)
  else if x < 0 then
    (if 0 ≤ y then Real.arctan (y / x) + Real.pi else Real.arctan (y / x) - Real.pi)
  else if 0 < y then Real.pi / 2
  else if y < 0 then -(Real.pi / 2)
  else 0

/-- Degrees to radians, the local `toRad` of `getGeoDistance`. -/
noncomputable def toRad (x : ℝ) : ℝ := x * Real.pi / 180

/-- Haversine intermediate value `a` of `getGeoDistance`:
`sin(dLat/2)^2 + cos(lat1) cos(lat2) sin(dLng/2)^2`. -/
noncomputable def haversineA (p1 p2 : ℚ × ℚ) : ℝ :=
  let lat1 : ℝ := (p1.2 : ℝ)
  let lat2 : ℝ := (p2.2 : ℝ)
  let dLat := toRad (lat2 - lat1)
  let dLng := toRad ((p2.1 : ℝ) - (p1.1 : ℝ))
  Real.sin (dLat / 2) ^ 2 +
    Real.cos (toRad lat1) * Real.cos (toRad lat2) * Real.sin (dLng / 2) ^ 2

/-- Function `getGeoDistance` of `src/utils/matchAlgorithm.ts`: haversine
great-circle distance in km between two `[lng, lat]` pairs on a sphere of
radius 6371 km, finished with `R * 2 * atan2(sqrt a, sqrt (1 - a))`. -/
noncomputable def getGeoDistance (p1 p2 : ℚ × ℚ) : ℝ :=
  6371 * 2 * atan2 (Real.sqrt (haversineA p1 p2)) (Real.sqrt (1 - haversineA p1 p2))

/-- Species gate of `computeMatchScore`: true when either species is
absent/empty (JavaScript-falsy) or the lowercased species differ. -/
def speciesMismatch (lostPet foundPet : PetLike) : Bool :=
  !strTruthy lostPet.species || !strTruthy foundPet.species ||
    jsToLower (lostPet.species.getD "") != jsToLower (foundPet.species.getD "")

/-- Breed contribution of `computeMatchScore`: +4 on an exact lowercase
match, +2 when one lowercased breed contains the other, else 0; 0 when
either breed is absent/empty. -/
def breedScore (lostPet foundPet : PetLike) : ℕ :=
  if strTruthy lostPet.breed && strTruthy foundPet.breed then
    let breedA := jsToLower (lostPet.breed.getD "")
    let breedB := jsToLower (foundPet.breed.getD "")
    if breedA == breedB then 4
    else if jsIncludes breedA breedB || jsIncludes breedB breedA then 2
    else 0
  else 0

/-- Fur-color contribution of `computeMatchScore`: +3 on an exact
lowercase match of present fur colors, else 0. -/
def furScore (lostPet foundPet : PetLike) : ℕ :=
  if strTruthy lostPet.furColor && strTruthy foundPet.furColor &&
      (jsToLower (lostPet.furColor.getD "") == jsToLower (foundPet.furColor.getD "")) then 3
  else 0

/-- Eye-color contribution of `computeMatchScore`: +2 on an exact
lowercase match of present eye colors, else 0. -/
def eyeScore (lostPet foundPet : PetLike) : ℕ :=
  if strTruthy lostPet.eyeColor && strTruthy foundPet.eyeColor &&
      (jsToLower (lostPet.eyeColor.getD "") == jsToLower (foundPet.eyeColor.getD "")) then 2
  else 0

/-- Age contribution of `computeMatchScore`: +2 when both age strings
parse (`parseFloat`) and the values differ by at most 1, else 0. -/
def ageScore (lostPet foundPet : PetLike) : ℕ :=
  if strTruthy lostPet.age && strTruthy foundPet.age then
    match parseFloatJS (lostPet.age.getD ""), parseFloatJS (foundPet.age.getD "") with
    | some a, some b => if |a - b| ≤ 1 then 2 else 0
    | _, _ => 0
  else 0

/-- Coordinate fallback of the scorer: `pet.location?.coordinates ?? [0, 0]`. -/
def petLikeCoords (p : PetLike) : ℚ × ℚ :=
  (p.location.bind LocationLike.coordinates).getD (0, 0)

/-- Location contribution of `computeMatchScore`: +6 when the haversine
distance between the two coordinate pairs (with `[0,0]` fallback) is at
most `maxScoreRadiusKm`, else 0. -/
noncomputable def locationScore (lostPet foundPet : PetLike) (maxScoreRadiusKm : ℝ) : ℕ :=
  if getGeoDistance (petLikeCoords lostPet) (petLikeCoords foundPet) ≤ maxScoreRadiusKm then 6
  else 0

/-- Function `computeMatchScore` of `src/utils/matchAlgorithm.ts`: the
species gate returns 0 outright, otherwise the breed, fur-color,
eye-color, age and location contributions are accumulated.  The default
scoring radius is 3 km. -/
noncomputable def computeMatchScore (lostPet foundPet : PetLike)
    (maxScoreRadiusKm : ℝ := 3) : ℕ :=
  if speciesMismatch lostPet foundPet then 0
  else breedScore lostPet foundPet + furScore lostPet foundPet +
    eyeScore lostPet foundPet + ageScore lostPet foundPet +
    locationScore lostPet foundPet maxScoreRadiusKm

/-- GeoJSON point of the Pet schema (`src/models/Pet.ts`):
`coordinates: { type: "Point", coordinates: [Number] }`. -/
structure GeoPoint where
  coordinates : Option (ℚ × ℚ)
deriving DecidableEq

/-- Location subdocument of the Pet schema: `{ address, coordinates }`. -/
structure PetLocation where
  address : Option String
  coordinates : Option GeoPoint
deriving DecidableEq

/-- MatchResult entry of the Pet schema: `{ petId, score, matchedAt }`.
Ids are abstract naturals, `matchedAt` an abstract timestamp. -/
structure MatchResult where
  petId : ℕ
  score : ℕ
  matchedAt : ℕ
deriving DecidableEq

/-- Pet document of `src/models/Pet.ts`, restricted to the fields the
matching engine reads or writes. -/
structure Pet where
  _id : ℕ
  ownerId : ℕ
  species : Option String
  breed : Option String
  age : Option String
  furColor : Option String
  eyeColor : Option String
  isLost : Bool
  isFound : Bool
  phoneNumbers : List String
  location : Option PetLocation
  matchResults : List MatchResult
deriving DecidableEq

/-- Coordinates read by the scanner:
`pet.location?.coordinates?.coordinates ?? [0, 0]`. -/
def scanCoords (p : Pet) : ℚ × ℚ :=
  ((p.location.bind PetLocation.coordinates).bind GeoPoint.coordinates).getD (0, 0)

/-- View of a Pet document as the scorer's argument
(`pet.toObject() as PetLike`): the attribute fields are carried over and
the GeoJSON coordinate pair is exposed as the `PetLike` coordinate pair. -/
def toPetLike (p : Pet) : PetLike :=
  { species := p.species, breed := p.breed, age := p.age,
    furColor := p.furColor, eyeColor := p.eyeColor,
    location := p.location.map fun loc => ⟨loc.coordinates.bind GeoPoint.coordinates⟩ }

/-- Scanner constant `MATCH_THRESHOLD = 7` of `src/jobs/matchScanner.ts`. -/
def MATCH_THRESHOLD : ℕ := 7

/-- Scanner constant `MAX_SEARCH_RADIUS_KM = 10` of
`src/jobs/matchScanner.ts`, compared against the haversine distance. -/
def MAX_SEARCH_RADIUS_KM : ℝ := 10

/-- Input record of `sendNotification` (`src/utils/sendNotification.ts`):
`{ userId, message, title, matchPetId }`. -/
structure NotificationInput where
  userId : ℕ
  title : String
  message : String
  matchPetId : Option ℕ
deriving DecidableEq

/-- Notification request the scanner issues for a qualifying pair:
title "Possible Match Found", the found reporter's phone numbers in the
message, the found pet's id as context. -/
def mkMatchNotification (lostPet foundPet : Pet) : NotificationInput :=
  { userId := lostPet.ownerId
    title := "Possible Match Found"
    message := "We may have found your lost pet!\nCall " ++
      String.intercalate "," foundPet.phoneNumbers
    matchPetId := some foundPet._id }

/-- Accumulator of the scanner's inner loop over found pets: the
in-memory lost document (mutated by appends), the id pairs passed to
`computeMatchScore` so far, and the notification requests issued so far. -/
structure LostScanState where
  lost : Pet
  scored : List (ℕ × ℕ)
  notified : List NotificationInput
deriving DecidableEq

/-- Body of the inner loop of `scanForLostFoundMatches` for one
(lost, found) pair: a pair farther than `MAX_SEARCH_RADIUS_KM` is skipped
before the scorer is invoked; otherwise the pair is scored, and on
`score >= MATCH_THRESHOLD` a MatchResult is appended to the in-memory
lost document unless its list already references the found pet's id
(`alreadyMatched`), and a notification is requested unconditionally. -/
noncomputable def scanStep (now : ℕ) (st : LostScanState) (foundPet : Pet) : LostScanState :=
  if getGeoDistance (scanCoords st.lost) (scanCoords foundPet) > MAX_SEARCH_RADIUS_KM then st
  else
    let score := computeMatchScore (toPetLike st.lost) (toPetLike foundPet) 3
    if MATCH_THRESHOLD ≤ score then
      let alreadyMatched := st.lost.matchResults.any fun m => m.petId == foundPet._id
      let lost' :=
        if alreadyMatched then st.lost
        else { st.lost with matchResults := st.lost.matchResults ++ [⟨foundPet._id, score, now⟩] }
      { lost := lost'
        scored := st.scored ++ [(st.lost._id, foundPet._id)]
        notified := st.notified ++ [mkMatchNotification lost' foundPet] }
    else { st with scored := st.scored ++ [(st.lost._id, foundPet._id)] }

/-- Inner loop of the scanner: one lost document swept over every found
candidate. -/
noncomputable def scanLost (now : ℕ) (foundPets : List Pet) (lostPet : Pet) : LostScanState :=
  foundPets.foldl (scanStep now) ⟨lostPet, [], []⟩

/-- Filter of `Pet.find({ isLost: true, isFound: false })`. -/
def isOpenLost (p : Pet) : Bool := p.isLost && !p.isFound

/-- Filter of `Pet.find({ isLost: false, isFound: true })`. -/
def isOpenFound (p : Pet) : Bool := !p.isLost && p.isFound

/-- Observable result of one scan tick: the in-memory lost documents
after the sweep, the id pairs handed to the scorer, the notification
requests, and the persisted store when the tick completes.  The source
never calls `save()` on the mutated lost documents, so the persisted
store is the input store unchanged. -/
structure ScanResult where
  pets : List Pet
  scored : List (ℕ × ℕ)
  notified : List NotificationInput
  saved : List Pet
deriving DecidableEq

/-- Function `scanForLostFoundMatches` of `src/jobs/matchScanner.ts`:
fetch open lost and open found candidates, run the nested pair loop, and
finish the tick.  `now` is the timestamp used for appended MatchResults. -/
noncomputable def scanForLostFoundMatches (now : ℕ) (store : List Pet) : ScanResult :=
  let lostPets := store.filter isOpenLost
  let foundPets := store.filter isOpenFound
  let states := lostPets.map (scanLost now foundPets)
  { pets := states.map LostScanState.lost
    scored := (states.map LostScanState.scored).flatten
    notified := (states.map LostScanState.notified).flatten
    saved := store }

/-- Store as it would read if a tick's in-memory lost documents were
written back: every open lost document replaced by its swept version.
Used to express a second scan run over the first run's results. -/
noncomputable def postScanStore (now : ℕ) (store : List Pet) : List Pet :=
  store.map fun p =>
    if isOpenLost p then (scanLost now (store.filter isOpenFound) p).lost else p

/-- User document of the user model, restricted to what
`sendNotification` reads: id, email and the optional FCM device token. -/
structure User where
  _id : ℕ
  email : String
  fcmToken : Option String
deriving DecidableEq

/-- Outcome of one `sendNotification` call: the early return on a missing
user or missing/empty token (logged warning), a delivered message, or a
caught and logged transport error.  Every branch returns normally. -/
inductive SendOutcome where
  | skippedNoToken : SendOutcome
  | sent : String → SendOutcome
  | errorLogged : SendOutcome
deriving DecidableEq

/-- Function `sendNotification` of `src/utils/sendNotification.ts`: look
the user up, return early when the user or a truthy `fcmToken` is
missing, otherwise hand the payload to the messaging transport; a
transport error is caught and logged, never rethrown. -/
def sendNotification (users : List User)
    (transport : NotificationInput → Except String String)
    (input : NotificationInput) : SendOutcome :=
  match users.find? fun u => u._id == input.userId with
  | none => SendOutcome.skippedNoToken
  | some user =>
    if strTruthy user.fcmToken then
      match transport input with
      | Except.ok response => SendOutcome.sent response
      | Except.error _ => SendOutcome.errorLogged
    else SendOutcome.skippedNoToken

/-- Inner loop body of the scanner with the notification delivery
performed inline (as the source awaits `sendNotification` for each
qualifying pair): identical state evolution to `scanStep`, plus the
delivery outcome appended to a log. -/
noncomputable def scanStepNotify (users : List User)
    (transport : NotificationInput → Except String String) (now : ℕ)
    (acc : LostScanState × List SendOutcome) (foundPet : Pet) :
    LostScanState × List SendOutcome :=
  if getGeoDistance (scanCoords acc.1.lost) (scanCoords foundPet) > MAX_SEARCH_RADIUS_KM then acc
  else
    let score := computeMatchScore (toPetLike acc.1.lost) (toPetLike foundPet) 3
    if MATCH_THRESHOLD ≤ score then
      let alreadyMatched := acc.1.lost.matchResults.any fun m => m.petId == foundPet._id
      let lost' :=
        if alreadyMatched then acc.1.lost
        else { acc.1.lost with
          matchResults := acc.1.lost.matchResults ++ [⟨foundPet._id, score, now⟩] }
      let notif := mkMatchNotification lost' foundPet
      (⟨lost', acc.1.scored ++ [(acc.1.lost._id, foundPet._id)], acc.1.notified ++ [notif]⟩,
        acc.2 ++ [sendNotification users transport notif])
    else
      ({ acc.1 with scored := acc.1.scored ++ [(acc.1.lost._id, foundPet._id)] }, acc.2)

/-- One scan tick with inline notification delivery: state evolution as
in `scanForLostFoundMatches`, plus the per-call delivery outcomes. -/
noncomputable def scanTickNotify (users : List User)
    (transport : NotificationInput → Except String String) (now : ℕ)
    (store : List Pet) : ScanResult × List SendOutcome :=
  let lostPets := store.filter isOpenLost
  let foundPets := store.filter isOpenFound
  let runs := lostPets.map fun p =>
    foundPets.foldl (scanStepNotify users transport now) (⟨p, [], []⟩, [])
  ({ pets := runs.map fun r => r.1.lost
     scored := (runs.map fun r => r.1.scored).flatten
     notified := (runs.map fun r => r.1.notified).flatten
     saved := store },
   (runs.map fun r => r.2).flatten)

/-- PetLike view of a bare ObjectId: the `/pets/match` handler passes
`entry._id as any` (a document id, not a document) to the scorer, so
none of the scorer's attributes are present. -/
def objectIdPetLike : PetLike := ⟨none, none, none, none, none, none⟩

/-- Handler `POST /pets/match` of the pet routes file: validate the
payload, fetch open lost pets, score `entry._id` against the payload for
each entry, keep scores at least 8 and sort descending by score.
Returns `none` for the 400 response on a missing species or missing
coordinates, otherwise the (entry id, score) match list. -/
noncomputable def matchEndpointPets (foundPet : PetLike) (store : List Pet) :
    Option (List (ℕ × ℕ)) :=
  if ¬ strTruthy foundPet.species ∨ (foundPet.location.bind LocationLike.coordinates) = none then
    none
  else
    let lostPets := store.filter isOpenLost
    let scoredMatches := lostPets.map fun entry =>
      (entry._id, computeMatchScore objectIdPetLike foundPet 3)
    some ((scoredMatches.filter fun m => 8 ≤ m.2).mergeSort fun a b => decide (b.2 ≤ a.2))

/-- LostPet report document (`src/models/LostPet.ts`): a lost/found event
referencing a pet, with its own status. `pet` carries the result of
`populate("petId")`: the referenced pet document when it exists. -/
structure LostPetEntry where
  _id : ℕ
  status : String
  pet : Option Pet
deriving DecidableEq

/-- Handler `POST /lost/match` of `src/routes/lostPetRoutes.ts`: validate
the payload, fetch reports with status "lost" populated with their pet,
score each populated pet against the payload, keep scores at least 8 and
sort descending by score.  Returns `none` for the 400 response,
otherwise the (entry id, score) match list. -/
noncomputable def matchEndpointLost (foundPet : PetLike) (entries : List LostPetEntry) :
    Option (List (ℕ × ℕ)) :=
  if ¬ strTruthy foundPet.species ∨ (foundPet.location.bind LocationLike.coordinates) = none then
    none
  else
    let lostPets := entries.filter fun e => e.status == "lost"
    let scoredMatches := lostPets.map fun entry =>
      (entry._id,
        computeMatchScore ((entry.pet.map toPetLike).getD objectIdPetLike) foundPet 3)
    some ((scoredMatches.filter fun m => 8 ≤ m.2).mergeSort fun a b => decide (b.2 ≤ a.2))

/-- Handler `POST /pets/:id/confirm-match` of the pet routes file: reject
a missing `matchedPetId` (400), a missing pet (404) or a foreign owner
(403); otherwise reset the lost/found flags, clear the pet's own match
list, save it, and pull every MatchResult referencing `matchedPetId`
from every other pet document. -/
def confirmMatch (store : List Pet) (userId : ℕ) (id : ℕ) (matchedPetId : Option ℕ) :
    Option (List Pet) :=
  match matchedPetId with
  | none => none
  | some matchedId =>
    match store.find? fun p => p._id == id with
    | none => none
    | some pet =>
      if pet.ownerId ≠ userId then none
      else
        let saved := { pet with isLost := false, isFound := false, matchResults := [] }
        some (store.map fun p =>
          if p._id == pet._id then saved
          else if p.matchResults.any fun m => m.petId == matchedId then
            { p with matchResults := p.matchResults.filter fun m => !(m.petId == matchedId) }
          else p)

/-- Replace a pet document's match list, keeping every other field. -/
def setMatches (p : Pet) (ms : List MatchResult) : Pet := { p with matchResults := ms }

/-- The scanner's coarse-filter condition for a pair: the haversine
distance between the two candidates exceeds the search radius. -/
noncomputable def pairFar (lostPet foundPet : Pet) : Prop :=
  getGeoDistance (scanCoords lostPet) (scanCoords foundPet) > MAX_SEARCH_RADIUS_KM

/-- The score the scanner computes for a surviving pair. -/
noncomputable def pairScore (lostPet foundPet : Pet) : ℕ :=
  computeMatchScore (toPetLike lostPet) (toPetLike foundPet) 3

/-- A pair qualifies when it survives the coarse filter and meets the
match threshold; this depends only on the candidates' attributes, never
on their match lists. -/
noncomputable def qualifies (lostPet foundPet : Pet) : Prop :=
  ¬ pairFar lostPet foundPet ∧ MATCH_THRESHOLD ≤ pairScore lostPet foundPet

open Classical in
/-- MatchResult entries a sweep of the found list appends for a lost pet
with attributes of `p` and current match list `ms`: one entry per
qualifying found pet whose id is not yet referenced, threaded in order. -/
noncomputable def newEntries (now : ℕ) (p : Pet) (ms : List MatchResult) :
    List Pet → List MatchResult
  | [] => []
  | f :: fs =>
    let add :=
      if qualifies p f ∧ f._id ∉ ms.map MatchResult.petId then
        [⟨f._id, pairScore p f, now⟩] else []
    add ++ newEntries now p (ms ++ add) fs

open Classical in
/-- Id pairs a sweep of the found list passes to the scorer for a lost
pet with attributes of `p`: every pair surviving the coarse filter. -/
noncomputable def scoredOf (p : Pet) : List Pet → List (ℕ × ℕ)
  | [] => []
  | f :: fs => (if pairFar p f then [] else [(p._id, f._id)]) ++ scoredOf p fs

open Classical in
/-- Notification requests a sweep of the found list issues for a lost pet
with attributes of `p`: one per qualifying pair, already matched or not. -/
noncomputable def notifsOf (p : Pet) : List Pet → List NotificationInput
  | [] => []
  | f :: fs =>
    (if qualifies p f then [mkMatchNotification p f] else []) ++ notifsOf p fs

/-- Demonstration lost pet document: open lost, no coordinates, empty
match list. -/
def demoPetLost : Pet :=
  ⟨1, 10, some "dog", some "labrador", some "3", some "golden", some "brown",
    true, false, [], none, []⟩

/-- Demonstration found pet document: open found, identical attributes to
`demoPetLost`, no coordinates. -/
def demoPetFound : Pet :=
  ⟨2, 11, some "dog", some "labrador", some "3", some "golden", some "brown",
    false, true, ["0501234567"], none, []⟩

/-- Demonstration store: one open lost and one open found pet that score
17 together. -/
def demoStore : List Pet := [demoPetLost, demoPetFound]

/-- Demonstration match-query payload identical to `demoPetLost`'s
attributes, with explicit `[0,0]` coordinates. -/
def demoQuery : PetLike :=
  ⟨some "dog", some "labrador", some "3", some "golden", some "brown", some ⟨some (0, 0)⟩⟩

/-- Pet location at longitude `lng` on the equator. -/
def equatorLocation (lng : ℚ) : Option PetLocation := some ⟨none, some ⟨some (lng, 0)⟩⟩

/-- Demonstration lost pet pinned at the origin. -/
def demoFarLost : Pet := { demoPetLost with location := equatorLocation 0 }

/-- Demonstration found pet one degree of longitude away (about 111 km). -/
def demoFarFound : Pet := { demoPetFound with location := equatorLocation 1 }

/-- Demonstration store whose only pair is far beyond the search radius. -/
def demoFarStore : List Pet := [demoFarLost, demoFarFound]

/-- Demonstration lost pet for concrete witnesses of the scorer claims. -/
def demoLost : PetLike :=
  ⟨some "dog", some "husky", some "3", some "white", some "blue", none⟩

/-- Demonstration found pet for concrete witnesses of the scorer claims. -/
def demoFound : PetLike :=
  ⟨some "dog", some "poodle", some "7", some "black", some "green", none⟩

/-- Demonstration pet for the confirm-match claim: owned by user 10, its
match list references candidate 2. -/
def demoConfirmA : Pet :=
  ⟨1, 10, some "dog", none, none, none, none, true, false, [], none, [⟨2, 9, 5⟩]⟩

/-- Second demonstration pet for the confirm-match claim: a different
owner, match list referencing candidates 2 and 4. -/
def demoConfirmB : Pet :=
  ⟨3, 11, some "cat", none, none, none, none, true, false, [], none, [⟨2, 8, 5⟩, ⟨4, 7, 5⟩]⟩

/-- Demonstration store for the confirm-match claim. -/
def demoConfirmStore : List Pet := [demoConfirmA, demoConfirmB]

/- ### Helper lemmas -/

theorem haversineA_comm (p q : ℚ × ℚ) : haversineA p q = haversineA q p := by
  have key : ∀ x y : ℝ,
      Real.sin ((x - y) * Real.pi / 180 / 2) ^ 2 =
        Real.sin ((y - x) * Real.pi / 180 / 2) ^ 2 := by
    intro x y
    have hxy : (x - y) * Real.pi / 180 / 2 = -((y - x) * Real.pi / 180 / 2) := by ring
    rw [hxy, Real.sin_neg]
    ring
  unfold haversineA toRad
  dsimp only
  rw [key ((q.2 : ℚ) : ℝ) ((p.2 : ℚ) : ℝ), key ((q.1 : ℚ) : ℝ) ((p.1 : ℚ) : ℝ)]
  ring

theorem haversineA_self (p : ℚ × ℚ) : haversineA p p = 0 := by
  unfold haversineA toRad
  simp

theorem getGeoDistance_comm (p q : ℚ × ℚ) : getGeoDistance p q = getGeoDistance q p := by
  unfold getGeoDistance
  rw [haversineA_comm]

theorem getGeoDistance_self (p : ℚ × ℚ) : getGeoDistance p p = 0 := by
  unfold getGeoDistance
  rw [haversineA_self]
  have h1 : Real.sqrt 0 = 0 := Real.sqrt_zero
  have h2 : Real.sqrt (1 - 0) = 1 := by
    rw [sub_zero, Real.sqrt_one]
  rw [h1, h2]
  unfold atan2
  rw [if_pos one_pos]
  simp

theorem locationScore_of_eq_coords (l f : PetLike) (r : ℝ)
    (h : petLikeCoords l = petLikeCoords f) (hr : 0 ≤ r) :
    locationScore l f r = 6 := by
  unfold locationScore
  rw [h, getGeoDistance_self]
  exact if_pos hr

theorem breedScore_le (l f : PetLike) : breedScore l f ≤ 4 := by
  simp only [breedScore]
  split_ifs
  all_goals omega

theorem furScore_le (l f : PetLike) : furScore l f ≤ 3 := by
  unfold furScore
  split
  all_goals omega

theorem eyeScore_le (l f : PetLike) : eyeScore l f ≤ 2 := by
  unfold eyeScore
  split
  all_goals omega

theorem ageScore_le (l f : PetLike) : ageScore l f ≤ 2 := by
  unfold ageScore
  repeat' split
  all_goals omega

theorem locationScore_le (l f : PetLike) (r : ℝ) : locationScore l f r ≤ 6 := by
  unfold locationScore
  split
  all_goals omega

theorem computeMatchScore_mono_components (l f g : PetLike) (r : ℝ)
    (hsp : speciesMismatch l g = speciesMismatch l f)
    (hb : breedScore l f ≤ breedScore l g)
    (hfur : furScore l f ≤ furScore l g)
    (he : eyeScore l f ≤ eyeScore l g)
    (ha : ageScore l f ≤ ageScore l g)
    (hl : locationScore l f r ≤ locationScore l g r) :
    computeMatchScore l f r ≤ computeMatchScore l g r := by
  unfold computeMatchScore
  rw [hsp]
  by_cases h : speciesMismatch l f
  · simp [h]
  · simp only [h, Bool.false_eq_true, if_false]
    omega

theorem setMatches_self (p : Pet) : setMatches p p.matchResults = p := rfl

theorem matchResults_setMatches (p : Pet) (ms : List MatchResult) :
    (setMatches p ms).matchResults = ms := rfl

theorem pairFar_setMatches (p f : Pet) (ms : List MatchResult) :
    pairFar (setMatches p ms) f = pairFar p f := rfl

theorem pairScore_setMatches (p f : Pet) (ms : List MatchResult) :
    pairScore (setMatches p ms) f = pairScore p f := rfl

theorem isOpenLost_setMatches (p : Pet) (ms : List MatchResult) :
    isOpenLost (setMatches p ms) = isOpenLost p := rfl

theorem isOpenFound_setMatches (p : Pet) (ms : List MatchResult) :
    isOpenFound (setMatches p ms) = isOpenFound p := rfl

theorem scanCoords_setMatches (p : Pet) (ms : List MatchResult) :
    scanCoords (setMatches p ms) = scanCoords p := rfl

theorem toPetLike_setMatches (p : Pet) (ms : List MatchResult) :
    toPetLike (setMatches p ms) = toPetLike p := rfl

theorem setMatches_oid (p : Pet) (ms : List MatchResult) :
    (setMatches p ms)._id = p._id := rfl

theorem mkMatchNotification_setMatches (p f : Pet) (ms : List MatchResult) :
    mkMatchNotification (setMatches p ms) f = mkMatchNotification p f := rfl

theorem anyMatched_iff (ms : List MatchResult) (x : ℕ) :
    (ms.any fun m => m.petId == x) = true ↔ x ∈ ms.map MatchResult.petId := by
  rw [List.any_eq_true]
  constructor
  · rintro ⟨m, hm, hx⟩
    exact List.mem_map.mpr ⟨m, hm, by simpa using hx.symm⟩
  · intro hx
    rcases List.mem_map.mp hx with ⟨m, hm, hpet⟩
    exact ⟨m, hm, by simp [hpet]⟩

theorem scanStep_eq (now : ℕ) (p : Pet) (ms : List MatchResult) (sc : List (ℕ × ℕ))
    (no : List NotificationInput) (f : Pet) :
    scanStep now ⟨setMatches p ms, sc, no⟩ f =
      if pairFar p f then ⟨setMatches p ms, sc, no⟩
      else if MATCH_THRESHOLD ≤ pairScore p f then
        ⟨setMatches p (ms ++ (if f._id ∈ ms.map MatchResult.petId then []
            else [⟨f._id, pairScore p f, now⟩])),
          sc ++ [(p._id, f._id)], no ++ [mkMatchNotification p f]⟩
      else ⟨setMatches p ms, sc ++ [(p._id, f._id)], no⟩ := by
  simp only [scanStep, pairFar, pairScore, scanCoords_setMatches, toPetLike_setMatches,
    matchResults_setMatches, setMatches_oid]
  by_cases h1 : getGeoDistance (scanCoords p) (scanCoords f) > MAX_SEARCH_RADIUS_KM
  · simp only [if_pos h1]
  · simp only [if_neg h1]
    by_cases h2 : MATCH_THRESHOLD ≤ computeMatchScore (toPetLike p) (toPetLike f) 3
    · simp only [if_pos h2]
      by_cases h3 : f._id ∈ ms.map MatchResult.petId
      · have hb : (ms.any fun m => m.petId == f._id) = true := (anyMatched_iff ms f._id).mpr h3
        simp only [hb, if_pos h3, if_true, List.append_nil, mkMatchNotification_setMatches]
      · have hb : (ms.any fun m => m.petId == f._id) = false := by
          rw [Bool.eq_false_iff]
          intro hcon
          exact h3 ((anyMatched_iff ms f._id).mp hcon)
        have hms : ({ p with matchResults := ms } : Pet).matchResults = ms := rfl
        simp only [hb, if_neg h3, Bool.false_eq_true, if_false, setMatches,
          mkMatchNotification_setMatches, hms]
        rfl
    · simp only [if_neg h2]

theorem scanLost_fold (now : ℕ) (fs : List Pet) : ∀ (p : Pet) (ms : List MatchResult)
    (sc : List (ℕ × ℕ)) (no : List NotificationInput),
    fs.foldl (scanStep now) ⟨setMatches p ms, sc, no⟩ =
      ⟨setMatches p (ms ++ newEntries now p ms fs), sc ++ scoredOf p fs,
        no ++ notifsOf p fs⟩ := by
  induction fs with
  | nil =>
    intro p ms sc no
    simp [newEntries, scoredOf, notifsOf]
  | cons f fs ih =>
    intro p ms sc no
    rw [List.foldl_cons, scanStep_eq]
    by_cases h1 : pairFar p f
    · have hq : ¬ qualifies p f := fun hq => hq.1 h1
      rw [if_pos h1, ih]
      simp [newEntries, scoredOf, notifsOf, h1, hq]
    · by_cases h2 : MATCH_THRESHOLD ≤ pairScore p f
      · have hq : qualifies p f := ⟨h1, h2⟩
        rw [if_neg h1, if_pos h2, ih]
        by_cases h3 : f._id ∈ ms.map MatchResult.petId
        · simp [newEntries, scoredOf, notifsOf, h1, hq, h3, List.append_assoc]
        · simp [newEntries, scoredOf, notifsOf, h1, hq, h3, List.append_assoc]
      · have hq : ¬ qualifies p f := fun hq => h2 hq.2
        rw [if_neg h1, if_neg h2, ih]
        simp [newEntries, scoredOf, notifsOf, h1, hq, List.append_assoc]

theorem scanLost_eq (now : ℕ) (fs : List Pet) (p : Pet) :
    scanLost now fs p =
      ⟨setMatches p (p.matchResults ++ newEntries now p p.matchResults fs),
        scoredOf p fs, notifsOf p fs⟩ := by
  have h := scanLost_fold now fs p p.matchResults [] []
  rw [setMatches_self] at h
  simpa [scanLost] using h

theorem setMatches_setMatches (p : Pet) (ms ms' : List MatchResult) :
    setMatches (setMatches p ms) ms' = setMatches p ms' := rfl

theorem qualifies_setMatches (p f : Pet) (ms : List MatchResult) :
    qualifies (setMatches p ms) f = qualifies p f := rfl

theorem newEntries_setMatches (now : ℕ) (p : Pet) (ms0 : List MatchResult) (fs : List Pet) :
    ∀ ms, newEntries now (setMatches p ms0) ms fs = newEntries now p ms fs := by
  induction fs with
  | nil => intro ms; rfl
  | cons f fs ih =>
    intro ms
    simp only [newEntries, qualifies_setMatches, pairScore_setMatches, setMatches_oid, ih]

theorem notifsOf_setMatches (p : Pet) (ms0 : List MatchResult) (fs : List Pet) :
    notifsOf (setMatches p ms0) fs = notifsOf p fs := by
  induction fs with
  | nil => rfl
  | cons f fs ih =>
    simp only [notifsOf, qualifies_setMatches, mkMatchNotification_setMatches, ih]

theorem scoredOf_setMatches (p : Pet) (ms0 : List MatchResult) (fs : List Pet) :
    scoredOf (setMatches p ms0) fs = scoredOf p fs := by
  induction fs with
  | nil => rfl
  | cons f fs ih =>
    simp only [scoredOf, pairFar_setMatches, setMatches_oid, ih]

theorem mem_newEntries (now : ℕ) (p : Pet) (fs : List Pet) : ∀ (ms : List MatchResult) (x : ℕ),
    x ∈ (newEntries now p ms fs).map MatchResult.petId →
    ∃ f ∈ fs, f._id = x ∧ qualifies p f := by
  induction fs with
  | nil => intro ms x hx; simp [newEntries] at hx
  | cons f fs ih =>
    intro ms x hx
    by_cases hc : qualifies p f ∧ f._id ∉ ms.map MatchResult.petId
    · simp only [newEntries, if_pos hc, List.map_append] at hx
      rcases List.mem_append.mp hx with hx1 | hx2
      · have hxf : x = f._id := by simpa using hx1
        exact ⟨f, List.mem_cons_self f fs, hxf.symm, hc.1⟩
      · rcases ih _ x hx2 with ⟨g, hg, hgx, hgq⟩
        exact ⟨g, List.mem_cons_of_mem f hg, hgx, hgq⟩
    · simp only [newEntries, if_neg hc, List.nil_append] at hx
      rcases ih _ x hx with ⟨g, hg, hgx, hgq⟩
      exact ⟨g, List.mem_cons_of_mem f hg, hgx, hgq⟩

theorem newEntries_covers (now : ℕ) (p : Pet) (fs : List Pet) : ∀ (ms : List MatchResult)
    (f : Pet), f ∈ fs → qualifies p f →
    f._id ∈ (ms ++ newEntries now p ms fs).map MatchResult.petId := by
  induction fs with
  | nil => intro ms f hf; exact absurd hf (List.not_mem_nil f)
  | cons g gs ih =>
    intro ms f hf hq
    simp only [newEntries]
    rw [← List.append_assoc]
    rcases List.mem_cons.mp hf with rfl | hf'
    · have hmem2 : f._id ∈ (ms ++ if qualifies p f ∧ f._id ∉ ms.map MatchResult.petId then
          ([⟨f._id, pairScore p f, now⟩] : List MatchResult) else []).map MatchResult.petId := by
        by_cases hmem : f._id ∈ ms.map MatchResult.petId
        · rw [List.map_append]
          exact List.mem_append_left _ hmem
        · rw [if_pos ⟨hq, hmem⟩, List.map_append]
          exact List.mem_append_right _ (by simp)
      rw [List.map_append]
      exact List.mem_append_left _ hmem2
    · exact ih (ms ++ if qualifies p g ∧ g._id ∉ ms.map MatchResult.petId then
        ([⟨g._id, pairScore p g, now⟩] : List MatchResult) else []) f hf' hq

theorem newEntries_eq_nil (now : ℕ) (p : Pet) (fs : List Pet) : ∀ (ms : List MatchResult),
    (∀ f ∈ fs, qualifies p f → f._id ∈ ms.map MatchResult.petId) →
    newEntries now p ms fs = [] := by
  induction fs with
  | nil => intro ms _; rfl
  | cons g gs ih =>
    intro ms h
    have hcond : ¬ (qualifies p g ∧ g._id ∉ ms.map MatchResult.petId) := by
      rintro ⟨hq, hnm⟩
      exact hnm (h g (List.mem_cons_self g gs) hq)
    rw [newEntries, if_neg hcond, List.nil_append, List.append_nil]
    exact ih ms fun f hf hq => h f (List.mem_cons_of_mem g hf) hq

theorem newEntries_nodup (now : ℕ) (p : Pet) (fs : List Pet) : ∀ (ms : List MatchResult),
    (ms.map MatchResult.petId).Nodup →
    ((ms ++ newEntries now p ms fs).map MatchResult.petId).Nodup := by
  induction fs with
  | nil => intro ms h; simpa [newEntries] using h
  | cons g gs ih =>
    intro ms h
    rw [newEntries, ← List.append_assoc]
    by_cases hc : qualifies p g ∧ g._id ∉ ms.map MatchResult.petId
    · rw [if_pos hc]
      apply ih
      rw [List.map_append, List.nodup_append]
      refine ⟨h, by simp, ?_⟩
      intro a ha hb
      simp at hb
      exact hc.2 (hb ▸ ha)
    · rw [if_neg hc]
      simpa using ih ms h

theorem mem_notifsOf (p : Pet) (fs : List Pet) (f : Pet) (hf : f ∈ fs)
    (hq : qualifies p f) : mkMatchNotification p f ∈ notifsOf p fs := by
  induction fs with
  | nil => exact absurd hf (List.not_mem_nil f)
  | cons g gs ih =>
    rcases List.mem_cons.mp hf with rfl | hf'
    · rw [notifsOf, if_pos hq]
      simp
    · rw [notifsOf]
      by_cases hg : qualifies p g
      · rw [if_pos hg]
        simpa using Or.inr (ih hf')
      · rw [if_neg hg]
        simpa using ih hf'

theorem mem_scoredOf (p : Pet) (fs : List Pet) (a b : ℕ) :
    (a, b) ∈ scoredOf p fs ↔ a = p._id ∧ ∃ g ∈ fs, g._id = b ∧ ¬ pairFar p g := by
  induction fs with
  | nil => simp [scoredOf]
  | cons g gs ih =>
    rw [scoredOf]
    by_cases hg : pairFar p g
    · rw [if_pos hg, List.nil_append, ih]
      constructor
      · rintro ⟨rfl, g', hg', rfl, hfar⟩
        exact ⟨rfl, g', List.mem_cons_of_mem g hg', rfl, hfar⟩
      · rintro ⟨rfl, g', hg', rfl, hfar⟩
        rcases List.mem_cons.mp hg' with rfl | hmem
        · exact absurd hg hfar
        · exact ⟨rfl, g', hmem, rfl, hfar⟩
    · rw [if_neg hg]
      constructor
      · intro hx
        rcases List.mem_append.mp hx with hx1 | hx2
        · simp at hx1
          exact ⟨hx1.1, g, List.mem_cons_self g gs, hx1.2.symm, hg⟩
        · rcases ih.mp hx2 with ⟨rfl, g', hg', rfl, hfar⟩
          exact ⟨rfl, g', List.mem_cons_of_mem g hg', rfl, hfar⟩
      · rintro ⟨rfl, g', hg', rfl, hfar⟩
        rcases List.mem_cons.mp hg' with rfl | hmem
        · exact List.mem_append_left _ (by simp)
        · exact List.mem_append_right _ (ih.mpr ⟨rfl, g', hmem, rfl, hfar⟩)

theorem scan_pets_eq (now : ℕ) (store : List Pet) :
    (scanForLostFoundMatches now store).pets =
      (store.filter isOpenLost).map fun p =>
        (scanLost now (store.filter isOpenFound) p).lost := by
  unfold scanForLostFoundMatches
  simp [List.map_map, Function.comp]

theorem scan_scored_eq (now : ℕ) (store : List Pet) :
    (scanForLostFoundMatches now store).scored =
      ((store.filter isOpenLost).map fun p =>
        scoredOf p (store.filter isOpenFound)).flatten := by
  unfold scanForLostFoundMatches
  simp only [List.map_map]
  congr 1
  apply List.map_congr_left
  intro p _
  show (scanLost now (store.filter isOpenFound) p).scored = _
  rw [scanLost_eq]

theorem scan_notified_eq (now : ℕ) (store : List Pet) :
    (scanForLostFoundMatches now store).notified =
      ((store.filter isOpenLost).map fun p =>
        notifsOf p (store.filter isOpenFound)).flatten := by
  unfold scanForLostFoundMatches
  simp only [List.map_map]
  congr 1
  apply List.map_congr_left
  intro p _
  show (scanLost now (store.filter isOpenFound) p).notified = _
  rw [scanLost_eq]

theorem filter_map_comm {α : Type} (g : α → α) (q : α → Bool)
    (hg : ∀ x, q (g x) = q x) : ∀ l : List α, (l.map g).filter q = (l.filter q).map g := by
  intro l
  induction l with
  | nil => rfl
  | cons a l ih =>
    cases hqa : q a <;> simp [List.filter_cons, hg, hqa, ih]

theorem filter_map_fixed {α : Type} (g : α → α) (q : α → Bool)
    (hg : ∀ x, q (g x) = q x) (hfix : ∀ x, q x = true → g x = x) :
    ∀ l : List α, (l.map g).filter q = l.filter q := by
  intro l
  rw [filter_map_comm g q hg]
  induction l with
  | nil => rfl
  | cons a l ih =>
    cases hqa : q a
    · simp [List.filter_cons, hqa, ih]
    · simp [List.filter_cons, hqa, hfix a hqa, ih]

theorem isOpenLost_scanLost (now : ℕ) (fs : List Pet) (p : Pet) :
    isOpenLost ((scanLost now fs p).lost) = isOpenLost p := by
  rw [scanLost_eq]
  exact isOpenLost_setMatches p _

theorem isOpenFound_scanLost (now : ℕ) (fs : List Pet) (p : Pet) :
    isOpenFound ((scanLost now fs p).lost) = isOpenFound p := by
  rw [scanLost_eq]
  exact isOpenFound_setMatches p _

theorem postScan_filter_found (now : ℕ) (store : List Pet) :
    (postScanStore now store).filter isOpenFound = store.filter isOpenFound := by
  unfold postScanStore
  apply filter_map_fixed
  · intro x
    by_cases hx : isOpenLost x
    · simp [hx, isOpenFound_scanLost]
    · simp [hx]
  · intro x hx
    have hlost : isOpenLost x = false := by
      unfold isOpenFound at hx
      unfold isOpenLost
      simp only [Bool.and_eq_true, Bool.not_eq_true'] at hx
      simp [hx.1]
    simp [hlost]

theorem postScan_filter_lost (now : ℕ) (store : List Pet) :
    (postScanStore now store).filter isOpenLost =
      (store.filter isOpenLost).map fun p =>
        (scanLost now (store.filter isOpenFound) p).lost := by
  unfold postScanStore
  rw [filter_map_comm]
  · apply List.map_congr_left
    intro p hp
    have hp' : isOpenLost p = true := (List.mem_filter.mp hp).2
    simp [hp']
  · intro x
    by_cases hx : isOpenLost x <;> simp [hx, isOpenLost_scanLost]

theorem scanLost_idempotent (now now' : ℕ) (fs : List Pet) (p : Pet) :
    (scanLost now' fs ((scanLost now fs p).lost)).lost = (scanLost now fs p).lost := by
  rw [scanLost_eq now fs p]
  have hcov : ∀ f ∈ fs, qualifies p f →
      f._id ∈ (p.matchResults ++ newEntries now p p.matchResults fs).map MatchResult.petId :=
    fun f hf hq => newEntries_covers now p fs p.matchResults f hf hq
  have hnil : newEntries now' p (p.matchResults ++ newEntries now p p.matchResults fs) fs = [] :=
    newEntries_eq_nil now' p fs _ hcov
  rw [scanLost_eq, setMatches_setMatches, matchResults_setMatches, newEntries_setMatches,
    hnil, List.append_nil]

theorem scan_pets_idempotent (now now' : ℕ) (store : List Pet) :
    (scanForLostFoundMatches now' (postScanStore now store)).pets =
      (scanForLostFoundMatches now store).pets := by
  rw [scan_pets_eq, scan_pets_eq, postScan_filter_found, postScan_filter_lost, List.map_map]
  apply List.map_congr_left
  intro p _
  exact scanLost_idempotent now now' (store.filter isOpenFound) p

theorem scan_notified_stable (now now' : ℕ) (store : List Pet) :
    (scanForLostFoundMatches now' (postScanStore now store)).notified =
      (scanForLostFoundMatches now store).notified := by
  rw [scan_notified_eq, scan_notified_eq, postScan_filter_found, postScan_filter_lost,
    List.map_map]
  congr 1
  apply List.map_congr_left
  intro p _
  show notifsOf ((scanLost now (store.filter isOpenFound) p).lost) _ = _
  rw [scanLost_eq]
  exact notifsOf_setMatches p _ _

theorem computeMatchScore_of_mismatch (l f : PetLike) (r : ℝ)
    (h : speciesMismatch l f = true) : computeMatchScore l f r = 0 := by
  unfold computeMatchScore
  rw [h]
  simp

theorem computeMatchScore_eval (l f : PetLike) (hsp : speciesMismatch l f = false)
    (hloc : petLikeCoords l = petLikeCoords f) :
    computeMatchScore l f 3 =
      breedScore l f + furScore l f + eyeScore l f + ageScore l f + 6 := by
  have h6 := locationScore_of_eq_coords l f 3 hloc (by norm_num)
  unfold computeMatchScore
  simp only [hsp, Bool.false_eq_true, if_false, h6]

theorem pairScore_demo : pairScore demoPetLost demoPetFound = 17 := by
  unfold pairScore
  rw [computeMatchScore_eval (toPetLike demoPetLost) (toPetLike demoPetFound)
    (by decide) rfl]
  with_unfolding_all decide

theorem pairFar_demo : ¬ pairFar demoPetLost demoPetFound := by
  unfold pairFar
  rw [show scanCoords demoPetLost = scanCoords demoPetFound from rfl, getGeoDistance_self]
  norm_num [MAX_SEARCH_RADIUS_KM]

theorem qualifies_demo : qualifies demoPetLost demoPetFound :=
  ⟨pairFar_demo, by rw [pairScore_demo]; norm_num [MATCH_THRESHOLD]⟩

theorem haversineA_equator : haversineA (0, 0) (1, 0) = Real.sin (Real.pi / 360) ^ 2 := by
  unfold haversineA toRad
  push_cast
  norm_num
  ring_nf

theorem getGeoDistance_equator : getGeoDistance (0, 0) (1, 0) = 6371 * 2 * (Real.pi / 360) := by
  have hθ0 : (0 : ℝ) < Real.pi / 360 := by positivity
  have hθπ : Real.pi / 360 < Real.pi / 2 := by
    have := Real.pi_pos
    linarith
  have hsin : Real.sqrt (Real.sin (Real.pi / 360) ^ 2) = Real.sin (Real.pi / 360) :=
    Real.sqrt_sq (Real.sin_nonneg_of_nonneg_of_le_pi (le_of_lt hθ0)
      (by linarith [Real.pi_pos]))
  have hcospos : 0 < Real.cos (Real.pi / 360) :=
    Real.cos_pos_of_mem_Ioo ⟨by linarith [Real.pi_pos], hθπ⟩
  have hcos : Real.sqrt (1 - Real.sin (Real.pi / 360) ^ 2) = Real.cos (Real.pi / 360) := by
    have h1 : 1 - Real.sin (Real.pi / 360) ^ 2 = Real.cos (Real.pi / 360) ^ 2 := by
      have := Real.sin_sq_add_cos_sq (Real.pi / 360)
      linarith
    rw [h1]
    exact Real.sqrt_sq (le_of_lt hcospos)
  unfold getGeoDistance
  rw [haversineA_equator, hsin, hcos]
  unfold atan2
  rw [if_pos hcospos, ← Real.tan_eq_sin_div_cos,
    Real.arctan_tan (by linarith [Real.pi_pos]) hθπ]

theorem getGeoDistance_equator_gt : getGeoDistance (0, 0) (1, 0) > 10 := by
  rw [getGeoDistance_equator]
  nlinarith [Real.pi_gt_three]

theorem pairFar_demoFar : pairFar demoFarLost demoFarFound := by
  unfold pairFar
  rw [show scanCoords demoFarLost = ((0 : ℚ), (0 : ℚ)) from rfl,
    show scanCoords demoFarFound = ((1 : ℚ), (0 : ℚ)) from rfl]
  have := getGeoDistance_equator_gt
  unfold MAX_SEARCH_RADIUS_KM
  linarith

theorem eq_of_mem_of_id_eq {store : List Pet} (hids : (store.map Pet._id).Nodup)
    {p q : Pet} (hp : p ∈ store) (hq : q ∈ store) (h : p._id = q._id) : p = q :=
  List.inj_on_of_nodup_map hids hp hq h

theorem find_id_of_nodup (store : List Pet) (pet : Pet) (hmem : pet ∈ store)
    (hids : (store.map Pet._id).Nodup) :
    store.find? (fun p => p._id == pet._id) = some pet := by
  induction store with
  | nil => exact absurd hmem (List.not_mem_nil pet)
  | cons a l ih =>
    simp only [List.map_cons, List.nodup_cons] at hids
    rcases List.mem_cons.mp hmem with rfl | hmem'
    · rw [List.find?_cons_of_pos _ (by simp)]
    · have hne : (a._id == pet._id) = false := by
        simp only [beq_eq_false_iff_ne, ne_eq]
        intro he
        exact hids.1 (he ▸ List.mem_map.mpr ⟨pet, hmem', rfl⟩)
      rw [List.find?_cons_of_neg _ (by simp [hne])]
      exact ih hmem' hids.2

theorem speciesMismatch_objectId (q : PetLike) : speciesMismatch objectIdPetLike q = true := by
  simp [speciesMismatch, objectIdPetLike, strTruthy]

theorem score_demoQuery : computeMatchScore (toPetLike demoPetLost) demoQuery 3 = 17 := by
  rw [computeMatchScore_eval (toPetLike demoPetLost) demoQuery (by decide) rfl]
  with_unfolding_all decide

theorem newEntries_demo :
    newEntries 99 demoPetLost demoPetLost.matchResults [demoPetFound] =
      [⟨2, 17, 99⟩] := by
  simp only [newEntries]
  rw [if_pos ⟨qualifies_demo, by decide⟩]
  simp [newEntries, pairScore_demo, show demoPetFound._id = 2 from rfl]

theorem scanStepNotify_fst (users : List User)
    (transport : NotificationInput → Except String String) (now : ℕ)
    (acc : LostScanState × List SendOutcome) (f : Pet) :
    (scanStepNotify users transport now acc f).1 = scanStep now acc.1 f := by
  simp only [scanStepNotify, scanStep]
  by_cases h1 : getGeoDistance (scanCoords acc.1.lost) (scanCoords f) > MAX_SEARCH_RADIUS_KM
  · simp only [if_pos h1]
  · simp only [if_neg h1]
    by_cases h2 : MATCH_THRESHOLD ≤ computeMatchScore (toPetLike acc.1.lost) (toPetLike f) 3
    · simp only [if_pos h2]
    · simp only [if_neg h2]

theorem scanStepNotify_len (users : List User)
    (transport : NotificationInput → Except String String) (now : ℕ)
    (acc : LostScanState × List SendOutcome) (f : Pet) :
    (scanStepNotify users transport now acc f).2.length + acc.1.notified.length =
      acc.2.length + (scanStep now acc.1 f).notified.length := by
  simp only [scanStepNotify, scanStep]
  by_cases h1 : getGeoDistance (scanCoords acc.1.lost) (scanCoords f) > MAX_SEARCH_RADIUS_KM
  · simp only [if_pos h1]
  · simp only [if_neg h1]
    by_cases h2 : MATCH_THRESHOLD ≤ computeMatchScore (toPetLike acc.1.lost) (toPetLike f) 3
    · simp only [if_pos h2]
      simp [List.length_append]
      omega
    · simp only [if_neg h2]

theorem scanNotify_fold (users : List User)
    (transport : NotificationInput → Except String String) (now : ℕ) (fs : List Pet) :
    ∀ (st : LostScanState) (o : List SendOutcome),
    (fs.foldl (scanStepNotify users transport now) (st, o)).1 =
      fs.foldl (scanStep now) st ∧
    (fs.foldl (scanStepNotify users transport now) (st, o)).2.length + st.notified.length =
      o.length + (fs.foldl (scanStep now) st).notified.length := by
  induction fs with
  | nil =>
    intro st o
    refine ⟨rfl, ?_⟩
    simp
  | cons f fs ih =>
    intro st o
    rw [List.foldl_cons, List.foldl_cons]
    have hstep1 := scanStepNotify_fst users transport now (st, o) f
    have hstep2 := scanStepNotify_len users transport now (st, o) f
    dsimp only at hstep1 hstep2
    set X := scanStepNotify users transport now (st, o) f with hX
    have hih := ih X.1 X.2
    rw [Prod.mk.eta] at hih
    constructor
    · rw [hih.1, hstep1]
    · have h2 := hih.2
      rw [hstep1] at h2
      omega

/- ### Claim theorems -/

/-- C3: if either record's species is absent or the lowercased species
strings differ, `computeMatchScore` returns 0, regardless of breed, age,
fur color, eye color and coordinates. -/
theorem species_gate_zero (l f : PetLike) (r : ℝ)
    (h : l.species = none ∨ f.species = none ∨
      jsToLower (l.species.getD "") ≠ jsToLower (f.species.getD "")) :
    computeMatchScore l f r = 0 := by
  have hm : speciesMismatch l f = true := by
    unfold speciesMismatch
    rcases h with h | h | h
    · simp [h, strTruthy]
    · simp [h, strTruthy]
    · simp [h]
  unfold computeMatchScore
  rw [hm]
  simp

/-- Witness for C3: a "Dog" lost record against a "cat" found record
scores 0 even though every other attribute is present. -/
theorem species_gate_zero_witness :
    computeMatchScore
      ⟨some "Dog", some "poodle", some "3", some "black", some "green", none⟩
      ⟨some "cat", some "poodle", some "3", some "black", some "green", none⟩ 3 = 0 :=
  species_gate_zero _ _ 3 (Or.inr (Or.inr (by decide)))

/-- C9: the great-circle distance is symmetric and zero on the diagonal. -/
theorem getGeoDistance_symm_and_self (A B : ℚ × ℚ) :
    getGeoDistance A B = getGeoDistance B A ∧ getGeoDistance A A = 0 :=
  ⟨getGeoDistance_comm A B, getGeoDistance_self A⟩

/-- C5: `computeMatchScore` is monotone in each attribute comparison:
turning a fur-color mismatch into a lowercase-equal match, an eye-color
mismatch into a match, a breed mismatch into an exact or substring match,
an age difference above 1 into one at most 1, or a distance above the
score radius into one within it — holding every other input fixed —
never decreases the returned score. -/
theorem computeMatchScore_monotone (l f : PetLike) (r : ℝ) :
    (∀ v, furScore l { f with furColor := v } = 3 →
      computeMatchScore l f r ≤ computeMatchScore l { f with furColor := v } r) ∧
    (∀ v, eyeScore l { f with eyeColor := v } = 2 →
      computeMatchScore l f r ≤ computeMatchScore l { f with eyeColor := v } r) ∧
    (∀ v, breedScore l f = 0 → breedScore l { f with breed := v } ≠ 0 →
      computeMatchScore l f r ≤ computeMatchScore l { f with breed := v } r) ∧
    (∀ v, ageScore l { f with age := v } = 2 →
      computeMatchScore l f r ≤ computeMatchScore l { f with age := v } r) ∧
    (∀ v, locationScore l { f with location := v } r = 6 →
      computeMatchScore l f r ≤ computeMatchScore l { f with location := v } r) := by
  refine ⟨fun v hv => ?_, fun v hv => ?_, fun v h0 hv => ?_, fun v hv => ?_, fun v hv => ?_⟩
  · exact computeMatchScore_mono_components l f _ r rfl (le_of_eq rfl)
      (hv ▸ furScore_le l f) (le_of_eq rfl) (le_of_eq rfl) (le_of_eq rfl)
  · exact computeMatchScore_mono_components l f _ r rfl (le_of_eq rfl) (le_of_eq rfl)
      (hv ▸ eyeScore_le l f) (le_of_eq rfl) (le_of_eq rfl)
  · exact computeMatchScore_mono_components l f _ r rfl (h0 ▸ Nat.zero_le _)
      (le_of_eq rfl) (le_of_eq rfl) (le_of_eq rfl) (le_of_eq rfl)
  · exact computeMatchScore_mono_components l f _ r rfl (le_of_eq rfl) (le_of_eq rfl)
      (le_of_eq rfl) (hv ▸ ageScore_le l f) (le_of_eq rfl)
  · exact computeMatchScore_mono_components l f _ r rfl (le_of_eq rfl) (le_of_eq rfl)
      (le_of_eq rfl) (le_of_eq rfl) (hv ▸ locationScore_le l f r)

/-- C2: a (lost pet, candidate pet) pair appears at most once in the lost
pet's match-result list (petIds stay duplicate-free through a scan), and
running the scan again over the persisted result of a first run leaves
every lost candidate's MatchResult list length unchanged: the scanner
checks for an existing entry referencing the found candidate's id before
appending. -/
theorem scan_no_duplicate_matches (store : List Pet) (now now' : ℕ)
    (h : ∀ p ∈ store, (p.matchResults.map MatchResult.petId).Nodup) :
    (∀ q ∈ (scanForLostFoundMatches now store).pets,
      (q.matchResults.map MatchResult.petId).Nodup) ∧
    ((scanForLostFoundMatches now' (postScanStore now store)).pets.map
        fun q => q.matchResults.length) =
      ((scanForLostFoundMatches now store).pets.map fun q => q.matchResults.length) := by
  constructor
  · intro q hq
    rw [scan_pets_eq] at hq
    rcases List.mem_map.mp hq with ⟨p, hp, rfl⟩
    rw [scanLost_eq, matchResults_setMatches]
    exact newEntries_nodup now p _ p.matchResults (h p (List.mem_filter.mp hp).1)
  · rw [scan_pets_idempotent now now' store]

/-- Witness for C2: the demonstration store has duplicate-free match
lists, the scanned documents keep them duplicate-free, and a second run
over the persisted first run changes no match-list length. -/
theorem scan_no_duplicate_matches_witness :
    (∀ p ∈ demoStore, (p.matchResults.map MatchResult.petId).Nodup) ∧
    (∀ q ∈ (scanForLostFoundMatches 7 demoStore).pets,
      (q.matchResults.map MatchResult.petId).Nodup) ∧
    ((scanForLostFoundMatches 8 (postScanStore 7 demoStore)).pets.map
        fun q => q.matchResults.length) =
      ((scanForLostFoundMatches 7 demoStore).pets.map fun q => q.matchResults.length) := by
  have h : ∀ p ∈ demoStore, (p.matchResults.map MatchResult.petId).Nodup := by decide
  exact ⟨h, (scan_no_duplicate_matches demoStore 7 8 h).1,
    (scan_no_duplicate_matches demoStore 7 8 h).2⟩

/-- C4: a (lost, found) pair whose haversine distance (with the `[0,0]`
coordinate fallback) exceeds `MAX_SEARCH_RADIUS_KM` is never handed to
the scorer during a tick, and no MatchResult referencing that found pet
is recorded for the lost pet. -/
theorem scan_far_pair_not_scored (store : List Pet) (now : ℕ) (l f : Pet)
    (hids : (store.map Pet._id).Nodup)
    (hl : l ∈ store.filter isOpenLost) (hf : f ∈ store.filter isOpenFound)
    (hfar : pairFar l f) :
    (l._id, f._id) ∉ (scanForLostFoundMatches now store).scored ∧
    (f._id ∉ l.matchResults.map MatchResult.petId →
      ∀ q ∈ (scanForLostFoundMatches now store).pets, q._id = l._id →
        f._id ∉ q.matchResults.map MatchResult.petId) := by
  have hlstore : l ∈ store := (List.mem_filter.mp hl).1
  have hfstore : f ∈ store := (List.mem_filter.mp hf).1
  constructor
  · intro hmem
    rw [scan_scored_eq] at hmem
    rcases List.mem_flatten.mp hmem with ⟨lst, hlst, hpair⟩
    rcases List.mem_map.mp hlst with ⟨p, hp, rfl⟩
    rcases (mem_scoredOf p _ _ _).mp hpair with ⟨hpl, g, hg, hgid, hfarg⟩
    have hpeq : p = l :=
      eq_of_mem_of_id_eq hids (List.mem_filter.mp hp).1 hlstore hpl.symm
    have hgeq : g = f :=
      eq_of_mem_of_id_eq hids (List.mem_filter.mp hg).1 hfstore hgid
    rw [hpeq, hgeq] at hfarg
    exact hfarg hfar
  · intro hnot q hq hqid
    rw [scan_pets_eq] at hq
    rcases List.mem_map.mp hq with ⟨p, hp, rfl⟩
    rw [scanLost_eq, setMatches_oid] at hqid
    have hpeq : p = l := eq_of_mem_of_id_eq hids (List.mem_filter.mp hp).1 hlstore hqid
    subst hpeq
    intro hin
    rw [scanLost_eq, matchResults_setMatches, List.map_append] at hin
    rcases List.mem_append.mp hin with h1 | h2
    · exact hnot h1
    · rcases mem_newEntries now p _ _ _ h2 with ⟨g, hg, hgid, hgq⟩
      have hgeq : g = f :=
        eq_of_mem_of_id_eq hids (List.mem_filter.mp hg).1 hfstore hgid
      rw [hgeq] at hgq
      exact hgq.1 hfar

/-- Witness for C4: in the equator store the pair is about 111 km apart,
exceeds the radius, and is neither scored nor recorded. -/
theorem scan_far_pair_not_scored_witness :
    pairFar demoFarLost demoFarFound ∧
    (demoFarLost._id, demoFarFound._id) ∉ (scanForLostFoundMatches 0 demoFarStore).scored := by
  have h := scan_far_pair_not_scored demoFarStore 0 demoFarLost demoFarFound
    (by decide) (by decide) (by decide) pairFar_demoFar
  exact ⟨pairFar_demoFar, h.1⟩

/-- C10: the scanner requests a notification for every (lost, found) pair
within the search radius whose score meets the threshold — with no
condition on the lost pet's existing match list, so already-recorded
pairs are notified again — and a tick over the persisted result of a
previous tick issues exactly the same notifications. -/
theorem scan_notifies_every_qualifying_pair (store : List Pet) (now now' : ℕ) :
    (∀ l f, l ∈ store.filter isOpenLost → f ∈ store.filter isOpenFound →
      qualifies l f →
      mkMatchNotification l f ∈ (scanForLostFoundMatches now store).notified) ∧
    (scanForLostFoundMatches now' (postScanStore now store)).notified =
      (scanForLostFoundMatches now store).notified := by
  constructor
  · intro l f hl hf hq
    rw [scan_notified_eq]
    exact List.mem_flatten.mpr
      ⟨notifsOf l (store.filter isOpenFound),
        List.mem_map.mpr ⟨l, hl, rfl⟩, mem_notifsOf l _ f hf hq⟩
  · exact scan_notified_stable now now' store

/-- Witness for C10: the demonstration pair qualifies and its owner
notification is issued by the tick. -/
theorem scan_notifies_every_qualifying_pair_witness :
    qualifies demoPetLost demoPetFound ∧
    mkMatchNotification demoPetLost demoPetFound ∈
      (scanForLostFoundMatches 7 demoStore).notified :=
  ⟨qualifies_demo,
    (scan_notifies_every_qualifying_pair demoStore 7 7).1 demoPetLost demoPetFound
      (by decide) (by decide) qualifies_demo⟩

/-- Witness for C5: each of the five attribute improvements applied to a
concrete pair of dogs, with every hypothesis discharged concretely. -/
theorem computeMatchScore_monotone_witness :
    (furScore demoLost { demoFound with furColor := some "White" } = 3 ∧
      computeMatchScore demoLost demoFound 3 ≤
        computeMatchScore demoLost { demoFound with furColor := some "White" } 3) ∧
    (eyeScore demoLost { demoFound with eyeColor := some "BLUE" } = 2 ∧
      computeMatchScore demoLost demoFound 3 ≤
        computeMatchScore demoLost { demoFound with eyeColor := some "BLUE" } 3) ∧
    (breedScore demoLost demoFound = 0 ∧
      breedScore demoLost { demoFound with breed := some "Husky Mix" } ≠ 0 ∧
      computeMatchScore demoLost demoFound 3 ≤
        computeMatchScore demoLost { demoFound with breed := some "Husky Mix" } 3) ∧
    (ageScore demoLost { demoFound with age := some "4" } = 2 ∧
      computeMatchScore demoLost demoFound 3 ≤
        computeMatchScore demoLost { demoFound with age := some "4" } 3) ∧
    (locationScore demoLost { demoFound with location := none } 3 = 6 ∧
      computeMatchScore demoLost demoFound 3 ≤
        computeMatchScore demoLost { demoFound with location := none } 3) := by
  have hloc : locationScore demoLost { demoFound with location := none } 3 = 6 :=
    locationScore_of_eq_coords _ _ 3 rfl (by norm_num)
  refine ⟨⟨by decide, ?_⟩, ⟨by decide, ?_⟩, ⟨by decide, by decide, ?_⟩,
    ⟨by with_unfolding_all decide, ?_⟩, ⟨hloc, ?_⟩⟩
  · exact (computeMatchScore_monotone demoLost demoFound 3).1 (some "White") (by decide)
  · exact (computeMatchScore_monotone demoLost demoFound 3).2.1 (some "BLUE") (by decide)
  · exact (computeMatchScore_monotone demoLost demoFound 3).2.2.1 (some "Husky Mix")
      (by decide) (by decide)
  · exact (computeMatchScore_monotone demoLost demoFound 3).2.2.2.1 (some "4")
      (by with_unfolding_all decide)
  · exact (computeMatchScore_monotone demoLost demoFound 3).2.2.2.2 none hloc

/-- C1: the demonstration pair qualifies (within radius, score 17 at or
above the threshold, not already matched), the scan appends the
MatchResult to the in-memory lost document — but the persisted store
when the tick completes is the input store unchanged: the scanner never
writes the mutated document back, so no MatchResult is persisted. -/
theorem scan_match_recorded_in_memory_only :
    qualifies demoPetLost demoPetFound ∧
    demoPetLost.matchResults = [] ∧
    (scanForLostFoundMatches 99 demoStore).pets =
      [setMatches demoPetLost [⟨2, 17, 99⟩]] ∧
    (scanForLostFoundMatches 99 demoStore).saved = demoStore ∧
    ∀ p ∈ (scanForLostFoundMatches 99 demoStore).saved, p.matchResults = [] := by
  refine ⟨qualifies_demo, rfl, ?_, rfl, by decide⟩
  rw [scan_pets_eq]
  rw [show demoStore.filter isOpenLost = [demoPetLost] from rfl,
    show demoStore.filter isOpenFound = [demoPetFound] from rfl]
  rw [List.map_cons, List.map_nil, scanLost_eq, newEntries_demo]
  rfl

/-- C6: against a payload identical to the open lost pet `demoPetLost`
(true score 17, at least the threshold 8), the flags-variant
`POST /pets/match` handler returns an empty match list — it scores
`entry._id`, which carries none of the scorer's attributes — while the
report-variant `POST /lost/match` handler returns the candidate with its
score as the claim describes. -/
theorem pets_match_endpoint_returns_no_matches :
    8 ≤ computeMatchScore (toPetLike demoPetLost) demoQuery 3 ∧
    isOpenLost demoPetLost = true ∧
    matchEndpointPets demoQuery [demoPetLost] = some [] ∧
    matchEndpointLost demoQuery [⟨5, "lost", some demoPetLost⟩] = some [(5, 17)] := by
  refine ⟨by rw [score_demoQuery]; norm_num, rfl, ?_, ?_⟩
  · have h0 : computeMatchScore objectIdPetLike demoQuery 3 = 0 :=
      computeMatchScore_of_mismatch _ _ _ (speciesMismatch_objectId demoQuery)
    unfold matchEndpointPets
    rw [if_neg (by decide)]
    simp [h0, show List.filter isOpenLost [demoPetLost] = [demoPetLost] from rfl]
  · unfold matchEndpointLost
    rw [if_neg (by decide)]
    simp [score_demoQuery]

/-- C7: confirming a match on a pet the user owns maps the store to: the
confirmed pet with `isLost`/`isFound` reset and its match list cleared,
and every other pet unchanged except that every MatchResult referencing
the confirmed candidate's id is removed. -/
theorem confirm_match_resets_and_purges (store : List Pet) (uid mid : ℕ) (pet : Pet)
    (hids : (store.map Pet._id).Nodup) (hmem : pet ∈ store) (hown : pet.ownerId = uid) :
    confirmMatch store uid pet._id (some mid) =
      some (store.map fun p =>
        if p._id = pet._id then
          { p with isLost := false, isFound := false, matchResults := [] }
        else
          { p with matchResults := p.matchResults.filter fun m => !(m.petId == mid) }) := by
  unfold confirmMatch
  rw [find_id_of_nodup store pet hmem hids]
  dsimp only
  rw [if_neg (show ¬ pet.ownerId ≠ uid by rw [hown]; exact fun h => h rfl)]
  congr 1
  apply List.map_congr_left
  intro p hp
  by_cases hpe : p._id = pet._id
  · have hpp : p = pet := eq_of_mem_of_id_eq hids hp hmem hpe
    rw [if_pos (by simp [hpe]), if_pos hpe, hpp]
  · rw [if_neg (by simp [hpe]), if_neg hpe]
    by_cases hany : (p.matchResults.any fun m => m.petId == mid) = true
    · rw [if_pos hany]
    · rw [if_neg hany]
      have hall : ∀ m ∈ p.matchResults, (!(m.petId == mid)) = true := by
        intro m hm
        have := List.any_eq_false.mp (Bool.eq_false_iff.mpr hany) m hm
        simp [this]
      rw [List.filter_eq_self.mpr hall]

/-- Witness for C7: confirming candidate 2 on pet 1 clears pet 1's list
and flags and strips candidate 2 (and only candidate 2) from pet 3's
list. -/
theorem confirm_match_resets_and_purges_witness :
    confirmMatch demoConfirmStore 10 demoConfirmA._id (some 2) =
      some (demoConfirmStore.map fun p =>
        if p._id = demoConfirmA._id then
          { p with isLost := false, isFound := false, matchResults := [] }
        else
          { p with matchResults := p.matchResults.filter fun m => !(m.petId == 2) }) ∧
    confirmMatch demoConfirmStore 10 1 (some 2) =
      some [⟨1, 10, some "dog", none, none, none, none, false, false, [], none, []⟩,
        ⟨3, 11, some "cat", none, none, none, none, true, false, [], none, [⟨4, 7, 5⟩]⟩] :=
  ⟨confirm_match_resets_and_purges demoConfirmStore 10 2 demoConfirmA (by decide)
      (by decide) rfl,
    by decide⟩

/-- C8: the state a scan tick produces — the in-memory documents with
their recorded MatchResults, the scored pairs and the persisted store —
is the same for every user table and every notification transport: a
missing user, a missing or empty device token, or a transport error
yields a logged outcome for that pair and never aborts the remaining
pairs or removes a recorded MatchResult; every notification request
produces exactly one outcome. -/
theorem notification_failures_do_not_affect_scan (users : List User)
    (transport : NotificationInput → Except String String) (now : ℕ) (store : List Pet) :
    (scanTickNotify users transport now store).1 = scanForLostFoundMatches now store ∧
    (scanTickNotify users transport now store).2.length =
      (scanForLostFoundMatches now store).notified.length := by
  have key1 : ∀ p : Pet,
      ((store.filter isOpenFound).foldl (scanStepNotify users transport now)
        (⟨p, [], []⟩, [])).1 = scanLost now (store.filter isOpenFound) p := fun p =>
    (scanNotify_fold users transport now (store.filter isOpenFound) ⟨p, [], []⟩ []).1
  have key2 : ∀ p : Pet,
      ((store.filter isOpenFound).foldl (scanStepNotify users transport now)
        (⟨p, [], []⟩, [])).2.length =
        (scanLost now (store.filter isOpenFound) p).notified.length := by
    intro p
    have h := (scanNotify_fold users transport now (store.filter isOpenFound) ⟨p, [], []⟩ []).2
    simpa [scanLost] using h
  constructor
  · unfold scanTickNotify scanForLostFoundMatches
    simp only [List.map_map, ScanResult.mk.injEq]
    refine ⟨?_, ?_, ?_, trivial⟩
    · apply List.map_congr_left
      intro p _
      exact congrArg LostScanState.lost (key1 p)
    · congr 1
      apply List.map_congr_left
      intro p _
      exact congrArg LostScanState.scored (key1 p)
    · congr 1
      apply List.map_congr_left
      intro p _
      exact congrArg LostScanState.notified (key1 p)
  · unfold scanTickNotify scanForLostFoundMatches
    simp only [List.map_map]
    rw [List.length_flatten, List.length_flatten, List.map_map, List.map_map]
    congr 1
    apply List.map_congr_left
    intro p _
    exact key2 p

end PetMatch
